import Mathlib

/-!
Verification of the Blitz-Backend repository (a Django REST backend for a
developer networking platform: profiles, skills, projects, connections,
messages, endorsements).

The development is a shallow embedding of the data model (`api/models.py`),
the serializer validation layer (`api/serializers.py`) and the CRUD
operations exposed by the `ModelViewSet`s (`api/views.py`).  Records are
Lean structures mirroring the Django models field for field; the shared
relational store is a structure of lists; every API operation is a total
function from a request payload and a store to `Except ApiError (result ×
Store)`, mirroring Django REST Framework semantics: the serializer
validates the payload (collecting per-field error messages), uniqueness
validators derived from `Meta.unique_together` run after field validation,
and only then is the write applied; `on_delete=CASCADE` foreign keys make
deletes cascade.
-/

namespace Blitz

/-- Simplified stand-in for the framework's `EmailValidator` used by
`serializers.EmailField`: a single `@` with a nonempty local part and a
nonempty domain containing a dot.  No claim depends on the exact email
grammar. -/
def isValidEmail (e : String) : Bool :=
  match e.toList.splitOn '@' with
  | [lp, dom] => !lp.isEmpty && !dom.isEmpty && dom.contains '.'
  | _ => false

/-- Simplified stand-in for the framework's `URLValidator` used by
`serializers.URLField`: an `http://` or `https://` scheme.  No claim
depends on the exact URL grammar. -/
def isValidUrl (u : String) : Bool :=
  u.toList.take 7 == "http://".toList || u.toList.take 8 == "https://".toList

/-- `Skill.PROFICIENCY_CHOICES` from `api/models.py` (stored values). -/
def PROFICIENCY_CHOICES : List String :=
  ["beginner", "intermediate", "advanced", "expert"]

/-- `Connection.STATUS_CHOICES` from `api/models.py` (stored values). -/
def STATUS_CHOICES : List String :=
  ["pending", "connected"]

/-- The `Profile` model (`api/models.py`).  `id` is a one-to-one foreign key
to the auth `User` and is the primary key; it has no default value.
Timestamps are modelled as ticks of the store clock. -/
structure ProfileRec where
  id : Nat
  email : String
  full_name : Option String := none
  bio : Option String := none
  avatar_url : Option String := none
  location : Option String := none
  website : Option String := none
  github_url : Option String := none
  linkedin_url : Option String := none
  twitter_url : Option String := none
  years_experience : Option Int := none
  open_to_work : Bool := false
  created_at : Nat := 0
  updated_at : Nat := 0
  deriving Repr, DecidableEq

/-- The `Skill` model: UUID primary key (modelled as a fresh natural),
`profile` foreign key with `on_delete=CASCADE`, name, proficiency. -/
structure SkillRec where
  id : Nat
  profile : Nat
  skill_name : String
  proficiency : String
  created_at : Nat := 0
  deriving Repr, DecidableEq

/-- The `Project` model: UUID primary key, `profile` foreign key with
`on_delete=CASCADE`, free-text fields. -/
structure ProjectRec where
  id : Nat
  profile : Nat
  title : String
  description : Option String := none
  image_url : Option String := none
  project_url : Option String := none
  github_url : Option String := none
  technologies : Option String := none
  created_at : Nat := 0
  updated_at : Nat := 0
  deriving Repr, DecidableEq

/-- The `Connection` model: follower and following `Profile` foreign keys,
both `on_delete=CASCADE`, and a status string with choices and default
`'connected'`.  `Meta.unique_together = ('follower', 'following')`. -/
structure ConnectionRec where
  id : Nat
  follower : Nat
  following : Nat
  status : String
  created_at : Nat := 0
  deriving Repr, DecidableEq

/-- The `Message` model: sender and receiver `Profile` foreign keys, both
`on_delete=CASCADE`, content, and a read flag defaulting to `False`. -/
structure MessageRec where
  id : Nat
  sender : Nat
  receiver : Nat
  content : String
  read : Bool := false
  created_at : Nat := 0
  deriving Repr, DecidableEq

/-- The `Endorsement` model: endorser and endorsee `Profile` foreign keys
and a `Skill` foreign key, all `on_delete=CASCADE`.
`Meta.unique_together = ('endorser', 'endorsee', 'skill')`. -/
structure EndorsementRec where
  id : Nat
  endorser : Nat
  endorsee : Nat
  skill : Nat
  created_at : Nat := 0
  deriving Repr, DecidableEq

/-- The shared relational store.  `nextId` supplies fresh surrogate keys
(the UUID defaults of the models); `clock` supplies `auto_now` /
`auto_now_add` timestamps. -/
structure Store where
  profiles : List ProfileRec := []
  skills : List SkillRec := []
  projects : List ProjectRec := []
  connections : List ConnectionRec := []
  messages : List MessageRec := []
  endorsements : List EndorsementRec := []
  nextId : Nat := 0
  clock : Nat := 0
  deriving Repr, DecidableEq

/-- The empty database. -/
def emptyStore : Store := {}

/-- Errors surfaced by the request cycle: DRF validation errors carry a
structured list of (field, message) pairs (HTTP 400); missing objects give
HTTP 404; an unhandled database `IntegrityError` surfaces as HTTP 500. -/
inductive ApiError where
  | validation : List (String × String) → ApiError
  | notFound : ApiError
  | integrityError : ApiError
  deriving Repr, DecidableEq

/-- HTTP status code of each error class. -/
def httpStatus : ApiError → Nat
  | .validation _ => 400
  | .notFound => 404
  | .integrityError => 500

/-! ### Request payloads

One payload structure per serializer, with one `Option` field per writable
serializer field (`none` = absent from the request body).  Read-only
serializer fields that a client might still send (`MessageSerializer.read`)
are included and ignored by the operations, as DRF ignores read-only
fields present in the input. -/

structure ProfilePayload where
  email : Option String := none
  full_name : Option String := none
  bio : Option String := none
  avatar_url : Option String := none
  location : Option String := none
  website : Option String := none
  github_url : Option String := none
  linkedin_url : Option String := none
  twitter_url : Option String := none
  years_experience : Option Int := none
  open_to_work : Option Bool := none
  deriving Repr, DecidableEq

structure SkillPayload where
  profile : Option Nat := none
  skill_name : Option String := none
  proficiency : Option String := none
  deriving Repr, DecidableEq

structure ProjectPayload where
  profile : Option Nat := none
  title : Option String := none
  description : Option String := none
  image_url : Option String := none
  project_url : Option String := none
  github_url : Option String := none
  technologies : Option String := none
  deriving Repr, DecidableEq

structure ConnectionPayload where
  follower : Option Nat := none
  following : Option Nat := none
  status : Option String := none
  deriving Repr, DecidableEq

structure MessagePayload where
  sender : Option Nat := none
  receiver : Option Nat := none
  content : Option String := none
  /-- `MessageSerializer.read` is declared `read_only=True`; a value sent
  by the client is ignored by every operation. -/
  read : Option Bool := none
  deriving Repr, DecidableEq

structure EndorsementPayload where
  endorser : Option Nat := none
  endorsee : Option Nat := none
  skill : Option Nat := none
  deriving Repr, DecidableEq

/-! ### Field validation (`api/serializers.py`)

Each helper returns the list of per-field error messages the corresponding
DRF field produces. -/

/-- A required `CharField` with `max_length` (blank not allowed). -/
def reqCharErrs (field : String) (v : Option String) (maxLen : Nat) :
    List (String × String) :=
  match v with
  | none => [(field, "This field is required.")]
  | some str =>
    (if str.isEmpty then [(field, "This field may not be blank.")] else [])
      ++ (if str.length > maxLen then
            [(field, "Ensure this field has no more than the allowed number of characters.")]
          else [])

/-- A required `CharField` without `max_length` (blank not allowed):
`content` on `MessageSerializer`. -/
def reqTextErrs (field : String) (v : Option String) : List (String × String) :=
  match v with
  | none => [(field, "This field is required.")]
  | some str => if str.isEmpty then [(field, "This field may not be blank.")] else []

/-- An optional `CharField` with `allow_blank`, `allow_null` and a
`max_length` bound. -/
def optCharErrs (field : String) (v : Option String) (maxLen : Nat) :
    List (String × String) :=
  match v with
  | none => []
  | some str =>
    if str.length > maxLen then
      [(field, "Ensure this field has no more than the allowed number of characters.")]
    else []

/-- A required `EmailField`. -/
def reqEmailErrs (field : String) (v : Option String) : List (String × String) :=
  match v with
  | none => [(field, "This field is required.")]
  | some e => if isValidEmail e then [] else [(field, "Enter a valid email address.")]

/-- An optional `URLField` with `allow_blank`, `allow_null`. -/
def optUrlErrs (field : String) (v : Option String) : List (String × String) :=
  match v with
  | none => []
  | some u => if u.isEmpty || isValidUrl u then [] else [(field, "Enter a valid URL.")]

/-- A required `ChoiceField` (no default): `proficiency` on
`SkillSerializer`. -/
def reqChoiceErrs (field : String) (choices : List String) (v : Option String) :
    List (String × String) :=
  match v with
  | none => [(field, "This field is required.")]
  | some c => if choices.contains c then [] else [(field, "is not a valid choice.")]

/-- A `ChoiceField` with a default: absent means the default is used, a
present value must be a listed choice. -/
def defChoiceErrs (field : String) (choices : List String) (v : Option String) :
    List (String × String) :=
  match v with
  | none => []
  | some c => if choices.contains c then [] else [(field, "is not a valid choice.")]

/-- A required `PrimaryKeyRelatedField` over the `Profile` queryset. -/
def fkProfileErrs (field : String) (v : Option Nat) (s : Store) :
    List (String × String) :=
  match v with
  | none => [(field, "This field is required.")]
  | some pk =>
    if s.profiles.any (fun q => q.id == pk) then []
    else [(field, "Invalid pk - object does not exist.")]

/-- A required `PrimaryKeyRelatedField` over the `Skill` queryset. -/
def fkSkillErrs (field : String) (v : Option Nat) (s : Store) :
    List (String × String) :=
  match v with
  | none => [(field, "This field is required.")]
  | some pk =>
    if s.skills.any (fun q => q.id == pk) then []
    else [(field, "Invalid pk - object does not exist.")]

/-- `ProfileSerializer` field validation.  `id`, `created_at`, `updated_at`
are read-only; `bio` is an unbounded `CharField`; `years_experience` and
`open_to_work` are typed by the payload. -/
def validateProfile (p : ProfilePayload) : List (String × String) :=
  reqEmailErrs "email" p.email
    ++ optCharErrs "full_name" p.full_name 255
    ++ optUrlErrs "avatar_url" p.avatar_url
    ++ optCharErrs "location" p.location 255
    ++ optUrlErrs "website" p.website
    ++ optUrlErrs "github_url" p.github_url
    ++ optUrlErrs "linkedin_url" p.linkedin_url
    ++ optUrlErrs "twitter_url" p.twitter_url

/-- `SkillSerializer` field validation. -/
def validateSkill (p : SkillPayload) (s : Store) : List (String × String) :=
  fkProfileErrs "profile" p.profile s
    ++ reqCharErrs "skill_name" p.skill_name 255
    ++ reqChoiceErrs "proficiency" PROFICIENCY_CHOICES p.proficiency

/-- `ProjectSerializer` field validation. -/
def validateProject (p : ProjectPayload) (s : Store) : List (String × String) :=
  fkProfileErrs "profile" p.profile s
    ++ reqCharErrs "title" p.title 255
    ++ optUrlErrs "image_url" p.image_url
    ++ optUrlErrs "project_url" p.project_url
    ++ optUrlErrs "github_url" p.github_url

/-- `ConnectionSerializer` field validation (the unique-together validator
runs separately, after field validation). -/
def validateConnection (p : ConnectionPayload) (s : Store) : List (String × String) :=
  fkProfileErrs "follower" p.follower s
    ++ fkProfileErrs "following" p.following s
    ++ defChoiceErrs "status" STATUS_CHOICES p.status

/-- `MessageSerializer` field validation (`read` is read-only and never
validated). -/
def validateMessage (p : MessagePayload) (s : Store) : List (String × String) :=
  fkProfileErrs "sender" p.sender s
    ++ fkProfileErrs "receiver" p.receiver s
    ++ reqTextErrs "content" p.content

/-- `EndorsementSerializer` field validation (the unique-together validator
runs separately, after field validation). -/
def validateEndorsement (p : EndorsementPayload) (s : Store) : List (String × String) :=
  fkProfileErrs "endorser" p.endorser s
    ++ fkProfileErrs "endorsee" p.endorsee s
    ++ fkSkillErrs "skill" p.skill s

/-- Error body DRF produces when the `Connection` unique-together
validator fires. -/
def uniqueConnErr : List (String × String) :=
  [("non_field_errors", "The fields follower, following must make a unique set.")]

/-- Error body DRF produces when the `Endorsement` unique-together
validator fires. -/
def uniqueEndoErr : List (String × String) :=
  [("non_field_errors", "The fields endorser, endorsee, skill must make a unique set.")]

/-! ### Operations (`api/views.py`)

Each `ModelViewSet` delegates to the generic DRF implementations:
`create` = validate then `serializer.save()` (an INSERT); `update` =
fetch-or-404, validate, then save (an UPDATE of that row); `destroy` =
fetch-or-404 then `instance.delete()` with `CASCADE` collection. -/

/-- `POST /api/profiles/`.  `ProfileSerializer` declares `id` read-only,
so `validated_data` never contains a primary key; `Profile.id` is a
non-null `OneToOneField` primary key with no default, so the INSERT
carries NULL for `id` and the database rejects it with an
`IntegrityError` (HTTP 500).  No code path reaches a successful insert. -/
def createProfile (p : ProfilePayload) (_s : Store) :
    Except ApiError (ProfileRec × Store) :=
  if (validateProfile p).isEmpty then .error .integrityError
  else .error (.validation (validateProfile p))

/-- Model-layer creation of a `Profile` (`Profile.objects.create(id=user,
...)` from `api/models.py`), as performed outside the REST API (Django
admin, shell, fixtures) with an existing auth `User` as the key: the REST
create path cannot insert a `Profile` because the serializer excludes
`id`.  The one-to-one primary key enforces one `Profile` per account. -/
def adminCreateProfile (uid : Nat) (p : ProfilePayload) (s : Store) :
    Except ApiError (ProfileRec × Store) :=
  if s.profiles.any (fun q => q.id == uid) then .error .integrityError
  else
    let r : ProfileRec :=
      { id := uid, email := (p.email.getD ""), full_name := p.full_name,
        bio := p.bio, avatar_url := p.avatar_url, location := p.location,
        website := p.website, github_url := p.github_url,
        linkedin_url := p.linkedin_url, twitter_url := p.twitter_url,
        years_experience := p.years_experience,
        open_to_work := p.open_to_work.getD false,
        created_at := s.clock, updated_at := s.clock }
    .ok (r, { s with profiles := r :: s.profiles, clock := s.clock + 1 })

/-- `PUT /api/profiles/{id}/`: fetch-or-404, validate, save (`auto_now`
refreshes `updated_at`). -/
def updateProfile (uid : Nat) (p : ProfilePayload) (s : Store) :
    Except ApiError (ProfileRec × Store) :=
  match s.profiles.find? (fun q => q.id == uid) with
  | none => .error .notFound
  | some old =>
    if (validateProfile p).isEmpty then
      let r : ProfileRec :=
        { old with
          email := (p.email.getD ""), full_name := p.full_name,
          bio := p.bio, avatar_url := p.avatar_url, location := p.location,
          website := p.website, github_url := p.github_url,
          linkedin_url := p.linkedin_url, twitter_url := p.twitter_url,
          years_experience := p.years_experience,
          open_to_work := p.open_to_work.getD false,
          updated_at := s.clock }
      .ok (r, { s with
        profiles := s.profiles.map (fun q => if q.id == uid then r else q),
        clock := s.clock + 1 })
    else .error (.validation (validateProfile p))

/-- `DELETE /api/profiles/{id}/`: `CASCADE` deletes every `Skill`,
`Project`, `Connection`, `Message` and `Endorsement` referencing the
profile; deleting those skills in turn cascades to `Endorsement.skill`. -/
def deleteProfile (uid : Nat) (s : Store) : Except ApiError Store :=
  if s.profiles.any (fun q => q.id == uid) then
    .ok { s with
      profiles := s.profiles.filter (fun q => !(q.id == uid)),
      skills := s.skills.filter (fun sk => !(sk.profile == uid)),
      projects := s.projects.filter (fun pr => !(pr.profile == uid)),
      connections := s.connections.filter
        (fun c => !(c.follower == uid) && !(c.following == uid)),
      messages := s.messages.filter
        (fun m => !(m.sender == uid) && !(m.receiver == uid)),
      endorsements := s.endorsements.filter
        (fun e => !(e.endorser == uid) && !(e.endorsee == uid)
          && !(s.skills.any (fun sk => sk.id == e.skill && sk.profile == uid))) }
  else .error .notFound

/-- `POST /api/skills/`. -/
def createSkill (p : SkillPayload) (s : Store) :
    Except ApiError (SkillRec × Store) :=
  if (validateSkill p s).isEmpty then
    let r : SkillRec :=
      { id := s.nextId, profile := p.profile.getD 0,
        skill_name := (p.skill_name.getD ""), proficiency := (p.proficiency.getD ""),
        created_at := s.clock }
    .ok (r, { s with skills := r :: s.skills, nextId := s.nextId + 1,
                     clock := s.clock + 1 })
  else .error (.validation (validateSkill p s))

/-- `PUT /api/skills/{id}/`. -/
def updateSkill (sid : Nat) (p : SkillPayload) (s : Store) :
    Except ApiError (SkillRec × Store) :=
  match s.skills.find? (fun sk => sk.id == sid) with
  | none => .error .notFound
  | some old =>
    if (validateSkill p s).isEmpty then
      let r : SkillRec :=
        { old with
          profile := p.profile.getD 0,
          skill_name := (p.skill_name.getD ""),
          proficiency := (p.proficiency.getD "") }
      .ok (r, { s with
        skills := s.skills.map (fun sk => if sk.id == sid then r else sk),
        clock := s.clock + 1 })
    else .error (.validation (validateSkill p s))

/-- `DELETE /api/skills/{id}/`: `Endorsement.skill` is
`on_delete=CASCADE`, so endorsements of the skill are deleted too. -/
def deleteSkill (sid : Nat) (s : Store) : Except ApiError Store :=
  if s.skills.any (fun sk => sk.id == sid) then
    .ok { s with
      skills := s.skills.filter (fun sk => !(sk.id == sid)),
      endorsements := s.endorsements.filter (fun e => !(e.skill == sid)) }
  else .error .notFound

/-- `POST /api/projects/`. -/
def createProject (p : ProjectPayload) (s : Store) :
    Except ApiError (ProjectRec × Store) :=
  if (validateProject p s).isEmpty then
    let r : ProjectRec :=
      { id := s.nextId, profile := p.profile.getD 0, title := (p.title.getD ""),
        description := p.description, image_url := p.image_url,
        project_url := p.project_url, github_url := p.github_url,
        technologies := p.technologies,
        created_at := s.clock, updated_at := s.clock }
    .ok (r, { s with projects := r :: s.projects, nextId := s.nextId + 1,
                     clock := s.clock + 1 })
  else .error (.validation (validateProject p s))

/-- `PUT /api/projects/{id}/`. -/
def updateProject (pid : Nat) (p : ProjectPayload) (s : Store) :
    Except ApiError (ProjectRec × Store) :=
  match s.projects.find? (fun pr => pr.id == pid) with
  | none => .error .notFound
  | some old =>
    if (validateProject p s).isEmpty then
      let r : ProjectRec :=
        { old with
          profile := p.profile.getD 0, title := (p.title.getD ""),
          description := p.description, image_url := p.image_url,
          project_url := p.project_url, github_url := p.github_url,
          technologies := p.technologies, updated_at := s.clock }
      .ok (r, { s with
        projects := s.projects.map (fun pr => if pr.id == pid then r else pr),
        clock := s.clock + 1 })
    else .error (.validation (validateProject p s))

/-- `DELETE /api/projects/{id}/` (nothing references a project). -/
def deleteProject (pid : Nat) (s : Store) : Except ApiError Store :=
  if s.projects.any (fun pr => pr.id == pid) then
    .ok { s with projects := s.projects.filter (fun pr => !(pr.id == pid)) }
  else .error .notFound

/-- `POST /api/connections/`: field validation, then the
`UniqueTogetherValidator` generated from
`Meta.unique_together = ('follower', 'following')`; the `status`
`ChoiceField` default `'connected'` fills an absent status. -/
def createConnection (p : ConnectionPayload) (s : Store) :
    Except ApiError (ConnectionRec × Store) :=
  if (validateConnection p s).isEmpty then
    if s.connections.any (fun c =>
        c.follower == p.follower.getD 0 && c.following == p.following.getD 0) then
      .error (.validation uniqueConnErr)
    else
      let r : ConnectionRec :=
        { id := s.nextId, follower := p.follower.getD 0,
          following := p.following.getD 0,
          status := p.status.getD "connected", created_at := s.clock }
      .ok (r, { s with connections := r :: s.connections,
                       nextId := s.nextId + 1, clock := s.clock + 1 })
  else .error (.validation (validateConnection p s))

/-- `PUT /api/connections/{id}/`: the unique-together validator excludes
the instance being updated. -/
def updateConnection (cid : Nat) (p : ConnectionPayload) (s : Store) :
    Except ApiError (ConnectionRec × Store) :=
  match s.connections.find? (fun c => c.id == cid) with
  | none => .error .notFound
  | some old =>
    if (validateConnection p s).isEmpty then
      if s.connections.any (fun c => !(c.id == cid)
          && c.follower == p.follower.getD 0 && c.following == p.following.getD 0) then
        .error (.validation uniqueConnErr)
      else
        let r : ConnectionRec :=
          { old with
            follower := p.follower.getD 0, following := p.following.getD 0,
            status := p.status.getD "connected" }
        .ok (r, { s with
          connections := s.connections.map (fun c => if c.id == cid then r else c),
          clock := s.clock + 1 })
    else .error (.validation (validateConnection p s))

/-- `DELETE /api/connections/{id}/`. -/
def deleteConnection (cid : Nat) (s : Store) : Except ApiError Store :=
  if s.connections.any (fun c => c.id == cid) then
    .ok { s with connections := s.connections.filter (fun c => !(c.id == cid)) }
  else .error .notFound

/-- `POST /api/messages/`: `read` is read-only on the serializer, so the
created row always carries the model default `read=False`, whatever the
payload contained. -/
def createMessage (p : MessagePayload) (s : Store) :
    Except ApiError (MessageRec × Store) :=
  if (validateMessage p s).isEmpty then
    let r : MessageRec :=
      { id := s.nextId, sender := p.sender.getD 0, receiver := p.receiver.getD 0,
        content := (p.content.getD ""), read := false, created_at := s.clock }
    .ok (r, { s with messages := r :: s.messages, nextId := s.nextId + 1,
                     clock := s.clock + 1 })
  else .error (.validation (validateMessage p s))

/-- `PUT /api/messages/{id}/`: `read` is read-only, so the stored flag is
left untouched by the update, whatever the payload contained. -/
def updateMessage (mid : Nat) (p : MessagePayload) (s : Store) :
    Except ApiError (MessageRec × Store) :=
  match s.messages.find? (fun m => m.id == mid) with
  | none => .error .notFound
  | some old =>
    if (validateMessage p s).isEmpty then
      let r : MessageRec :=
        { old with
          sender := p.sender.getD 0, receiver := p.receiver.getD 0,
          content := (p.content.getD "") }
      .ok (r, { s with
        messages := s.messages.map (fun m => if m.id == mid then r else m),
        clock := s.clock + 1 })
    else .error (.validation (validateMessage p s))

/-- `DELETE /api/messages/{id}/`. -/
def deleteMessage (mid : Nat) (s : Store) : Except ApiError Store :=
  if s.messages.any (fun m => m.id == mid) then
    .ok { s with messages := s.messages.filter (fun m => !(m.id == mid)) }
  else .error .notFound

/-- `POST /api/endorsements/`: field validation, then the
`UniqueTogetherValidator` generated from
`Meta.unique_together = ('endorser', 'endorsee', 'skill')`. -/
def createEndorsement (p : EndorsementPayload) (s : Store) :
    Except ApiError (EndorsementRec × Store) :=
  if (validateEndorsement p s).isEmpty then
    if s.endorsements.any (fun e => e.endorser == p.endorser.getD 0
        && e.endorsee == p.endorsee.getD 0 && e.skill == p.skill.getD 0) then
      .error (.validation uniqueEndoErr)
    else
      let r : EndorsementRec :=
        { id := s.nextId, endorser := p.endorser.getD 0,
          endorsee := p.endorsee.getD 0, skill := p.skill.getD 0,
          created_at := s.clock }
      .ok (r, { s with endorsements := r :: s.endorsements,
                       nextId := s.nextId + 1, clock := s.clock + 1 })
  else .error (.validation (validateEndorsement p s))

/-- `PUT /api/endorsements/{id}/`: the unique-together validator excludes
the instance being updated. -/
def updateEndorsement (eid : Nat) (p : EndorsementPayload) (s : Store) :
    Except ApiError (EndorsementRec × Store) :=
  match s.endorsements.find? (fun e => e.id == eid) with
  | none => .error .notFound
  | some old =>
    if (validateEndorsement p s).isEmpty then
      if s.endorsements.any (fun e => !(e.id == eid) && e.endorser == p.endorser.getD 0
          && e.endorsee == p.endorsee.getD 0 && e.skill == p.skill.getD 0) then
        .error (.validation uniqueEndoErr)
      else
        let r : EndorsementRec :=
          { old with
            endorser := p.endorser.getD 0, endorsee := p.endorsee.getD 0,
            skill := p.skill.getD 0 }
        .ok (r, { s with
          endorsements := s.endorsements.map (fun e => if e.id == eid then r else e),
          clock := s.clock + 1 })
    else .error (.validation (validateEndorsement p s))

/-- `DELETE /api/endorsements/{id}/`. -/
def deleteEndorsement (eid : Nat) (s : Store) : Except ApiError Store :=
  if s.endorsements.any (fun e => e.id == eid) then
    .ok { s with endorsements := s.endorsements.filter (fun e => !(e.id == eid)) }
  else .error .notFound

/-! ### The operation alphabet and reachable states

`Op` enumerates every write operation the system offers (the REST
endpoints of `api/urls.py`, plus model-layer `Profile` creation, which is
the only way a `Profile` row can come to exist — see `createProfile` and
`adminCreateProfile`).  Reads (`list`, `retrieve`) do not change the
store. -/

inductive Op where
  | opCreateProfile (p : ProfilePayload)
  | opAdminCreateProfile (uid : Nat) (p : ProfilePayload)
  | opUpdateProfile (uid : Nat) (p : ProfilePayload)
  | opDeleteProfile (uid : Nat)
  | opCreateSkill (p : SkillPayload)
  | opUpdateSkill (sid : Nat) (p : SkillPayload)
  | opDeleteSkill (sid : Nat)
  | opCreateProject (p : ProjectPayload)
  | opUpdateProject (pid : Nat) (p : ProjectPayload)
  | opDeleteProject (pid : Nat)
  | opCreateConnection (p : ConnectionPayload)
  | opUpdateConnection (cid : Nat) (p : ConnectionPayload)
  | opDeleteConnection (cid : Nat)
  | opCreateMessage (p : MessagePayload)
  | opUpdateMessage (mid : Nat) (p : MessagePayload)
  | opDeleteMessage (mid : Nat)
  | opCreateEndorsement (p : EndorsementPayload)
  | opUpdateEndorsement (eid : Nat) (p : EndorsementPayload)
  | opDeleteEndorsement (eid : Nat)

/-- Run one operation against the store, returning the new store or the
error of the request. -/
def execOp (o : Op) (s : Store) : Except ApiError Store :=
  match o with
  | .opCreateProfile p =>
    match createProfile p s with
    | .ok x => .ok x.2
    | .error e => .error e
  | .opAdminCreateProfile uid p =>
    match adminCreateProfile uid p s with
    | .ok x => .ok x.2
    | .error e => .error e
  | .opUpdateProfile uid p =>
    match updateProfile uid p s with
    | .ok x => .ok x.2
    | .error e => .error e
  | .opDeleteProfile uid => deleteProfile uid s
  | .opCreateSkill p =>
    match createSkill p s with
    | .ok x => .ok x.2
    | .error e => .error e
  | .opUpdateSkill sid p =>
    match updateSkill sid p s with
    | .ok x => .ok x.2
    | .error e => .error e
  | .opDeleteSkill sid => deleteSkill sid s
  | .opCreateProject p =>
    match createProject p s with
    | .ok x => .ok x.2
    | .error e => .error e
  | .opUpdateProject pid p =>
    match updateProject pid p s with
    | .ok x => .ok x.2
    | .error e => .error e
  | .opDeleteProject pid => deleteProject pid s
  | .opCreateConnection p =>
    match createConnection p s with
    | .ok x => .ok x.2
    | .error e => .error e
  | .opUpdateConnection cid p =>
    match updateConnection cid p s with
    | .ok x => .ok x.2
    | .error e => .error e
  | .opDeleteConnection cid => deleteConnection cid s
  | .opCreateMessage p =>
    match createMessage p s with
    | .ok x => .ok x.2
    | .error e => .error e
  | .opUpdateMessage mid p =>
    match updateMessage mid p s with
    | .ok x => .ok x.2
    | .error e => .error e
  | .opDeleteMessage mid => deleteMessage mid s
  | .opCreateEndorsement p =>
    match createEndorsement p s with
    | .ok x => .ok x.2
    | .error e => .error e
  | .opUpdateEndorsement eid p =>
    match updateEndorsement eid p s with
    | .ok x => .ok x.2
    | .error e => .error e
  | .opDeleteEndorsement eid => deleteEndorsement eid s

/-- The store after a request: a failed request leaves the store exactly
as it was (DRF validates before saving, and each request runs in its own
transaction). -/
def applyOp (o : Op) (s : Store) : Store :=
  match execOp o s with
  | .ok s' => s'
  | .error _ => s

/-- The store states reachable from the empty database through the
system's write operations. -/
inductive Reachable : Store → Prop where
  | start : Reachable emptyStore
  | step : ∀ (s : Store) (o : Op), Reachable s → Reachable (applyOp o s)

/-! ### Store invariants -/

/-- Two endorsement rows agree on the (endorser, endorsee, skill)
triple. -/
def sameTriple (a b : EndorsementRec) : Prop :=
  a.endorser = b.endorser ∧ a.endorsee = b.endorsee ∧ a.skill = b.skill

theorem sameTriple_symm {a b : EndorsementRec} (h : sameTriple a b) : sameTriple b a :=
  ⟨h.1.symm, h.2.1.symm, h.2.2.symm⟩

/-- No two endorsement rows share the same (endorser, endorsee, skill)
triple. -/
def tripleUnique (s : Store) : Prop :=
  s.endorsements.Pairwise (fun a b => ¬ sameTriple a b)

/-- Every stored message has `read = false`. -/
def messagesUnread (s : Store) : Prop :=
  ∀ m ∈ s.messages, m.read = false

/-- Auxiliary bookkeeping invariant: endorsement primary keys are below
the fresh-key counter and pairwise distinct. -/
def endorsementKeysOk (s : Store) : Prop :=
  (∀ e ∈ s.endorsements, e.id < s.nextId) ∧
    s.endorsements.Pairwise (fun a b => a.id ≠ b.id)

/-- The combined inductive invariant. -/
def Inv (s : Store) : Prop :=
  endorsementKeysOk s ∧ tripleUnique s ∧ messagesUnread s

/-! ### Preservation of the invariant -/

/-- The invariant transfers along any step that only shrinks (or keeps)
the endorsement table, does not lower the fresh-key counter, and keeps
messages unread. -/
theorem inv_mono {s s' : Store}
    (hn : s.nextId ≤ s'.nextId)
    (he : s'.endorsements.Sublist s.endorsements)
    (hm : messagesUnread s → messagesUnread s')
    (h : Inv s) : Inv s' := by
  obtain ⟨⟨hfresh, hids⟩, htri, hmsg⟩ := h
  exact ⟨⟨fun e hme => lt_of_lt_of_le (hfresh e (he.subset hme)) hn,
          hids.sublist he⟩, htri.sublist he, hm hmsg⟩

theorem adminCreateProfile_inv {uid : Nat} {p : ProfilePayload} {s : Store}
    {x : ProfileRec × Store} (h : adminCreateProfile uid p s = .ok x)
    (hs : Inv s) : Inv x.2 := by
  unfold adminCreateProfile at h
  split at h
  · exact Except.noConfusion h
  · injection h with h; subst h
    refine inv_mono ?_ ?_ ?_ hs
    · exact Nat.le_refl _
    · exact List.Sublist.refl _
    · exact fun hm => hm

theorem updateProfile_inv {uid : Nat} {p : ProfilePayload} {s : Store}
    {x : ProfileRec × Store} (h : updateProfile uid p s = .ok x)
    (hs : Inv s) : Inv x.2 := by
  unfold updateProfile at h
  split at h
  · exact Except.noConfusion h
  · split at h
    · injection h with h; subst h
      refine inv_mono ?_ ?_ ?_ hs
      · exact Nat.le_refl _
      · exact List.Sublist.refl _
      · exact fun hm => hm
    · exact Except.noConfusion h

theorem deleteProfile_inv {uid : Nat} {s s' : Store}
    (h : deleteProfile uid s = .ok s') (hs : Inv s) : Inv s' := by
  unfold deleteProfile at h
  split at h
  · injection h with h; subst h
    refine inv_mono ?_ ?_ ?_ hs
    · exact Nat.le_refl _
    · exact List.filter_sublist _
    · intro hm m hm'
      exact hm m (List.mem_of_mem_filter hm')
  · exact Except.noConfusion h

theorem createSkill_inv {p : SkillPayload} {s : Store} {x : SkillRec × Store}
    (h : createSkill p s = .ok x) (hs : Inv s) : Inv x.2 := by
  unfold createSkill at h
  split at h
  · injection h with h; subst h
    refine inv_mono ?_ ?_ ?_ hs
    · exact Nat.le_succ _
    · exact List.Sublist.refl _
    · exact fun hm => hm
  · exact Except.noConfusion h

theorem updateSkill_inv {sid : Nat} {p : SkillPayload} {s : Store}
    {x : SkillRec × Store} (h : updateSkill sid p s = .ok x)
    (hs : Inv s) : Inv x.2 := by
  unfold updateSkill at h
  split at h
  · exact Except.noConfusion h
  · split at h
    · injection h with h; subst h
      refine inv_mono ?_ ?_ ?_ hs
      · exact Nat.le_refl _
      · exact List.Sublist.refl _
      · exact fun hm => hm
    · exact Except.noConfusion h

theorem deleteSkill_inv {sid : Nat} {s s' : Store}
    (h : deleteSkill sid s = .ok s') (hs : Inv s) : Inv s' := by
  unfold deleteSkill at h
  split at h
  · injection h with h; subst h
    refine inv_mono ?_ ?_ ?_ hs
    · exact Nat.le_refl _
    · exact List.filter_sublist _
    · exact fun hm => hm
  · exact Except.noConfusion h

theorem createProject_inv {p : ProjectPayload} {s : Store} {x : ProjectRec × Store}
    (h : createProject p s = .ok x) (hs : Inv s) : Inv x.2 := by
  unfold createProject at h
  split at h
  · injection h with h; subst h
    refine inv_mono ?_ ?_ ?_ hs
    · exact Nat.le_succ _
    · exact List.Sublist.refl _
    · exact fun hm => hm
  · exact Except.noConfusion h

theorem updateProject_inv {pid : Nat} {p : ProjectPayload} {s : Store}
    {x : ProjectRec × Store} (h : updateProject pid p s = .ok x)
    (hs : Inv s) : Inv x.2 := by
  unfold updateProject at h
  split at h
  · exact Except.noConfusion h
  · split at h
    · injection h with h; subst h
      refine inv_mono ?_ ?_ ?_ hs
      · exact Nat.le_refl _
      · exact List.Sublist.refl _
      · exact fun hm => hm
    · exact Except.noConfusion h

theorem deleteProject_inv {pid : Nat} {s s' : Store}
    (h : deleteProject pid s = .ok s') (hs : Inv s) : Inv s' := by
  unfold deleteProject at h
  split at h
  · injection h with h; subst h
    refine inv_mono ?_ ?_ ?_ hs
    · exact Nat.le_refl _
    · exact List.Sublist.refl _
    · exact fun hm => hm
  · exact Except.noConfusion h

theorem createConnection_inv {p : ConnectionPayload} {s : Store}
    {x : ConnectionRec × Store} (h : createConnection p s = .ok x)
    (hs : Inv s) : Inv x.2 := by
  unfold createConnection at h
  split at h
  · split at h
    · exact Except.noConfusion h
    · injection h with h; subst h
      refine inv_mono ?_ ?_ ?_ hs
      · exact Nat.le_succ _
      · exact List.Sublist.refl _
      · exact fun hm => hm
  · exact Except.noConfusion h

theorem updateConnection_inv {cid : Nat} {p : ConnectionPayload} {s : Store}
    {x : ConnectionRec × Store} (h : updateConnection cid p s = .ok x)
    (hs : Inv s) : Inv x.2 := by
  unfold updateConnection at h
  split at h
  · exact Except.noConfusion h
  · split at h
    · split at h
      · exact Except.noConfusion h
      · injection h with h; subst h
        refine inv_mono ?_ ?_ ?_ hs
        · exact Nat.le_refl _
        · exact List.Sublist.refl _
        · exact fun hm => hm
    · exact Except.noConfusion h

theorem deleteConnection_inv {cid : Nat} {s s' : Store}
    (h : deleteConnection cid s = .ok s') (hs : Inv s) : Inv s' := by
  unfold deleteConnection at h
  split at h
  · injection h with h; subst h
    refine inv_mono ?_ ?_ ?_ hs
    · exact Nat.le_refl _
    · exact List.Sublist.refl _
    · exact fun hm => hm
  · exact Except.noConfusion h

theorem createMessage_inv {p : MessagePayload} {s : Store} {x : MessageRec × Store}
    (h : createMessage p s = .ok x) (hs : Inv s) : Inv x.2 := by
  unfold createMessage at h
  split at h
  · injection h with h; subst h
    refine inv_mono ?_ ?_ ?_ hs
    · exact Nat.le_succ _
    · exact List.Sublist.refl _
    · intro hm m hm'
      rcases List.mem_cons.mp hm' with h1 | h2
      · subst h1; rfl
      · exact hm m h2
  · exact Except.noConfusion h

theorem updateMessage_inv {mid : Nat} {p : MessagePayload} {s : Store}
    {x : MessageRec × Store} (h : updateMessage mid p s = .ok x)
    (hs : Inv s) : Inv x.2 := by
  unfold updateMessage at h
  split at h
  · exact Except.noConfusion h
  · rename_i old hfind
    split at h
    · injection h with h; subst h
      refine inv_mono ?_ ?_ ?_ hs
      · exact Nat.le_refl _
      · exact List.Sublist.refl _
      · intro hm m hm'
        rcases List.mem_map.mp hm' with ⟨y, hy, hfy⟩
        subst hfy
        by_cases hid : (y.id == mid) = true
        · rw [if_pos hid]
          exact hm old (List.mem_of_find?_eq_some hfind)
        · rw [if_neg hid]
          exact hm y hy
    · exact Except.noConfusion h

theorem deleteMessage_inv {mid : Nat} {s s' : Store}
    (h : deleteMessage mid s = .ok s') (hs : Inv s) : Inv s' := by
  unfold deleteMessage at h
  split at h
  · injection h with h; subst h
    refine inv_mono ?_ ?_ ?_ hs
    · exact Nat.le_refl _
    · exact List.Sublist.refl _
    · intro hm m hm'
      exact hm m (List.mem_of_mem_filter hm')
  · exact Except.noConfusion h

/-- Replacing the row with primary key `eid` by a row that keeps that key
preserves pairwise distinctness of the keys. -/
theorem replace_ids_pairwise {l : List EndorsementRec} {eid : Nat} {r : EndorsementRec}
    (hrid : r.id = eid)
    (hids : l.Pairwise (fun a b => a.id ≠ b.id)) :
    (l.map (fun e => if e.id == eid then r else e)).Pairwise
      (fun a b => a.id ≠ b.id) := by
  rw [List.pairwise_map]
  refine hids.imp ?_
  intro a b hab
  by_cases hA : (a.id == eid) = true <;> by_cases hB : (b.id == eid) = true
  · exact absurd ((beq_iff_eq.mp hA).trans (beq_iff_eq.mp hB).symm) hab
  · rw [if_pos hA, if_neg hB, hrid]
    exact fun hEq => hB (beq_iff_eq.mpr hEq.symm)
  · rw [if_neg hA, if_pos hB, hrid]
    exact fun hEq => hA (beq_iff_eq.mpr hEq)
  · rw [if_neg hA, if_neg hB]
    exact hab

/-- Replacing the row with primary key `eid` by a row `r` whose triple
collides with no other row preserves triple uniqueness (given pairwise
distinct keys). -/
theorem replace_triples_pairwise {l : List EndorsementRec} {eid : Nat}
    {r : EndorsementRec}
    (hids : l.Pairwise (fun a b => a.id ≠ b.id))
    (htri : l.Pairwise (fun a b => ¬ sameTriple a b))
    (hval : ∀ e ∈ l, e.id ≠ eid → ¬ sameTriple e r) :
    (l.map (fun e => if e.id == eid then r else e)).Pairwise
      (fun a b => ¬ sameTriple a b) := by
  rw [List.pairwise_map]
  refine List.Pairwise.imp_of_mem ?_ (hids.and htri)
  intro a b ha hb hab
  obtain ⟨hidab, htriab⟩ := hab
  by_cases hA : (a.id == eid) = true <;> by_cases hB : (b.id == eid) = true
  · exact absurd ((beq_iff_eq.mp hA).trans (beq_iff_eq.mp hB).symm) hidab
  · rw [if_pos hA, if_neg hB]
    intro hst
    exact hval b hb (fun hEq => hB (beq_iff_eq.mpr hEq)) (sameTriple_symm hst)
  · rw [if_neg hA, if_pos hB]
    intro hst
    exact hval a ha (fun hEq => hA (beq_iff_eq.mpr hEq)) hst
  · rw [if_neg hA, if_neg hB]
    exact htriab

theorem createEndorsement_inv {p : EndorsementPayload} {s : Store}
    {x : EndorsementRec × Store} (h : createEndorsement p s = .ok x)
    (hs : Inv s) : Inv x.2 := by
  unfold createEndorsement at h
  split at h
  · split at h
    · exact Except.noConfusion h
    · rename_i hdup
      injection h with h; subst h
      obtain ⟨⟨hfresh, hids⟩, htri, hmsg⟩ := hs
      have hidnew : ∀ e ∈ s.endorsements, ¬(s.nextId = e.id) := by
        intro e he hEq
        have := hfresh e he
        omega
      have htrinew : ∀ e ∈ s.endorsements,
          ¬ sameTriple
            { id := s.nextId, endorser := p.endorser.getD 0,
              endorsee := p.endorsee.getD 0, skill := p.skill.getD 0,
              created_at := s.clock } e := by
        intro e he hst
        apply hdup
        refine List.any_eq_true.mpr ⟨e, he, ?_⟩
        obtain ⟨h1, h2, h3⟩ := hst
        simp only [Bool.and_eq_true, beq_iff_eq]
        exact ⟨⟨h1.symm, h2.symm⟩, h3.symm⟩
      refine ⟨⟨?_, ?_⟩, ?_, hmsg⟩
      · intro e he
        rcases List.mem_cons.mp he with h1 | h2
        · subst h1
          exact Nat.lt_succ_self _
        · exact Nat.lt_succ_of_lt (hfresh e h2)
      · exact List.pairwise_cons.mpr ⟨fun e he => hidnew e he, hids⟩
      · exact List.pairwise_cons.mpr ⟨fun e he => htrinew e he, htri⟩
  · exact Except.noConfusion h

theorem updateEndorsement_inv {eid : Nat} {p : EndorsementPayload} {s : Store}
    {x : EndorsementRec × Store} (h : updateEndorsement eid p s = .ok x)
    (hs : Inv s) : Inv x.2 := by
  unfold updateEndorsement at h
  split at h
  · exact Except.noConfusion h
  · rename_i old hfind
    split at h
    · split at h
      · exact Except.noConfusion h
      · rename_i hdup
        injection h with h; subst h
        obtain ⟨⟨hfresh, hids⟩, htri, hmsg⟩ := hs
        have hbid : (old.id == eid) = true := by
          have hb := List.find?_some hfind
          exact hb
        have holdid : old.id = eid := beq_iff_eq.mp hbid
        have holdmem : old ∈ s.endorsements := List.mem_of_find?_eq_some hfind
        have hval : ∀ e ∈ s.endorsements, e.id ≠ eid →
            ¬ sameTriple e
              { old with
                endorser := p.endorser.getD 0, endorsee := p.endorsee.getD 0,
                skill := p.skill.getD 0 } := by
          intro e he hne hst
          apply hdup
          refine List.any_eq_true.mpr ⟨e, he, ?_⟩
          obtain ⟨h1, h2, h3⟩ := hst
          simp only [Bool.and_eq_true, beq_iff_eq, Bool.not_eq_true']
          exact ⟨⟨⟨beq_eq_false_iff_ne.mpr hne, h1⟩, h2⟩, h3⟩
        refine ⟨⟨?_, ?_⟩, ?_, hmsg⟩
        · intro e he
          rcases List.mem_map.mp he with ⟨y, hy, hfy⟩
          subst hfy
          by_cases hY : (y.id == eid) = true
          · rw [if_pos hY]
            exact hfresh old holdmem
          · rw [if_neg hY]
            exact hfresh y hy
        · exact replace_ids_pairwise holdid hids
        · exact replace_triples_pairwise hids htri hval
    · exact Except.noConfusion h

theorem deleteEndorsement_inv {eid : Nat} {s s' : Store}
    (h : deleteEndorsement eid s = .ok s') (hs : Inv s) : Inv s' := by
  unfold deleteEndorsement at h
  split at h
  · injection h with h; subst h
    refine inv_mono ?_ ?_ ?_ hs
    · exact Nat.le_refl _
    · exact List.filter_sublist _
    · exact fun hm => hm
  · exact Except.noConfusion h

/-- `POST /api/profiles/` can never succeed (the serializer's read-only
`id` leaves the non-null primary key unset). -/
theorem createProfile_never_ok {p : ProfilePayload} {s : Store}
    {x : ProfileRec × Store} (h : createProfile p s = .ok x) : False := by
  unfold createProfile at h
  split at h
  · exact Except.noConfusion h
  · exact Except.noConfusion h

/-- Every operation that succeeds preserves the invariant. -/
theorem inv_execOp {o : Op} {s s' : Store} (h : execOp o s = .ok s')
    (hs : Inv s) : Inv s' := by
  cases o with
  | opCreateProfile p =>
    simp only [execOp] at h
    split at h
    · rename_i x hx
      exact absurd hx (fun hx => createProfile_never_ok hx)
    · exact Except.noConfusion h
  | opAdminCreateProfile uid p =>
    simp only [execOp] at h
    split at h
    · rename_i x hx
      injection h with h; subst h
      exact adminCreateProfile_inv hx hs
    · exact Except.noConfusion h
  | opUpdateProfile uid p =>
    simp only [execOp] at h
    split at h
    · rename_i x hx
      injection h with h; subst h
      exact updateProfile_inv hx hs
    · exact Except.noConfusion h
  | opDeleteProfile uid => exact deleteProfile_inv h hs
  | opCreateSkill p =>
    simp only [execOp] at h
    split at h
    · rename_i x hx
      injection h with h; subst h
      exact createSkill_inv hx hs
    · exact Except.noConfusion h
  | opUpdateSkill sid p =>
    simp only [execOp] at h
    split at h
    · rename_i x hx
      injection h with h; subst h
      exact updateSkill_inv hx hs
    · exact Except.noConfusion h
  | opDeleteSkill sid => exact deleteSkill_inv h hs
  | opCreateProject p =>
    simp only [execOp] at h
    split at h
    · rename_i x hx
      injection h with h; subst h
      exact createProject_inv hx hs
    · exact Except.noConfusion h
  | opUpdateProject pid p =>
    simp only [execOp] at h
    split at h
    · rename_i x hx
      injection h with h; subst h
      exact updateProject_inv hx hs
    · exact Except.noConfusion h
  | opDeleteProject pid => exact deleteProject_inv h hs
  | opCreateConnection p =>
    simp only [execOp] at h
    split at h
    · rename_i x hx
      injection h with h; subst h
      exact createConnection_inv hx hs
    · exact Except.noConfusion h
  | opUpdateConnection cid p =>
    simp only [execOp] at h
    split at h
    · rename_i x hx
      injection h with h; subst h
      exact updateConnection_inv hx hs
    · exact Except.noConfusion h
  | opDeleteConnection cid => exact deleteConnection_inv h hs
  | opCreateMessage p =>
    simp only [execOp] at h
    split at h
    · rename_i x hx
      injection h with h; subst h
      exact createMessage_inv hx hs
    · exact Except.noConfusion h
  | opUpdateMessage mid p =>
    simp only [execOp] at h
    split at h
    · rename_i x hx
      injection h with h; subst h
      exact updateMessage_inv hx hs
    · exact Except.noConfusion h
  | opDeleteMessage mid => exact deleteMessage_inv h hs
  | opCreateEndorsement p =>
    simp only [execOp] at h
    split at h
    · rename_i x hx
      injection h with h; subst h
      exact createEndorsement_inv hx hs
    · exact Except.noConfusion h
  | opUpdateEndorsement eid p =>
    simp only [execOp] at h
    split at h
    · rename_i x hx
      injection h with h; subst h
      exact updateEndorsement_inv hx hs
    · exact Except.noConfusion h
  | opDeleteEndorsement eid => exact deleteEndorsement_inv h hs

/-- A failed request leaves the store unchanged, a successful one
preserves the invariant: the invariant holds after any request. -/
theorem inv_applyOp (o : Op) (s : Store) (hs : Inv s) : Inv (applyOp o s) := by
  rw [applyOp]
  cases hx : execOp o s with
  | ok s' => exact inv_execOp hx hs
  | error e => exact hs

theorem inv_emptyStore : Inv emptyStore := by
  refine ⟨⟨?_, ?_⟩, ?_, ?_⟩
  · intro e he
    exact absurd he (List.not_mem_nil e)
  · exact List.Pairwise.nil
  · exact List.Pairwise.nil
  · intro m hm
    exact absurd hm (List.not_mem_nil m)

/-- The invariant holds in every reachable store state. -/
theorem inv_reachable {s : Store} (h : Reachable s) : Inv s := by
  induction h with
  | start => exact inv_emptyStore
  | step s o hr ih => exact inv_applyOp o s ih

/-- A request that fails leaves the store unchanged. -/
theorem applyOp_eq_of_error {o : Op} {s : Store} {e : ApiError}
    (h : execOp o s = .error e) : applyOp o s = s := by
  unfold applyOp
  rw [h]

/-! ### Concrete fixtures used by the witnesses -/

def prof1 : ProfileRec := { id := 1, email := "ann@example.com" }

def prof2 : ProfileRec := { id := 2, email := "bob@example.com" }

def skill1 : SkillRec :=
  { id := 3, profile := 1, skill_name := "Python", proficiency := "expert" }

def skill2 : SkillRec :=
  { id := 4, profile := 2, skill_name := "Go", proficiency := "beginner" }

def conn12 : ConnectionRec :=
  { id := 5, follower := 1, following := 2, status := "connected" }

def msg12 : MessageRec := { id := 6, sender := 1, receiver := 2, content := "hello" }

def endo121 : EndorsementRec := { id := 7, endorser := 1, endorsee := 2, skill := 4 }

def proj1 : ProjectRec := { id := 8, profile := 1, title := "Blitz" }

/-- A small populated database: two profiles, a skill each, one project,
one connection 1 → 2, one message 1 → 2, one endorsement of profile 2's
skill by profile 1. -/
def fixtureStore : Store :=
  { profiles := [prof1, prof2], skills := [skill1, skill2], projects := [proj1],
    connections := [conn12], messages := [msg12], endorsements := [endo121],
    nextId := 9, clock := 9 }

/-! ### The claims -/

/-- C1: for every Profile p, deleting p also deletes every Skill, Project,
Connection, Message and Endorsement that references p (as owner, follower,
following, sender, receiver, endorser or endorsee); no record referencing
p survives the delete. -/
theorem C1_profile_delete_cascades {uid : Nat} {s s' : Store}
    (h : deleteProfile uid s = .ok s') :
    (∀ q ∈ s'.profiles, q.id ≠ uid) ∧
    (∀ sk ∈ s'.skills, sk.profile ≠ uid) ∧
    (∀ pr ∈ s'.projects, pr.profile ≠ uid) ∧
    (∀ c ∈ s'.connections, c.follower ≠ uid ∧ c.following ≠ uid) ∧
    (∀ m ∈ s'.messages, m.sender ≠ uid ∧ m.receiver ≠ uid) ∧
    (∀ e ∈ s'.endorsements, e.endorser ≠ uid ∧ e.endorsee ≠ uid) := by
  unfold deleteProfile at h
  split at h
  · injection h with h
    subst h
    refine ⟨?_, ?_, ?_, ?_, ?_, ?_⟩
    · intro q hq
      have hp := (List.mem_filter.mp hq).2
      simpa [Bool.not_eq_true', beq_eq_false_iff_ne] using hp
    · intro sk hsk
      have hp := (List.mem_filter.mp hsk).2
      simpa [Bool.not_eq_true', beq_eq_false_iff_ne] using hp
    · intro pr hpr
      have hp := (List.mem_filter.mp hpr).2
      simpa [Bool.not_eq_true', beq_eq_false_iff_ne] using hp
    · intro c hc
      have hp := (List.mem_filter.mp hc).2
      simpa [Bool.and_eq_true, Bool.not_eq_true', beq_eq_false_iff_ne] using hp
    · intro m hm
      have hp := (List.mem_filter.mp hm).2
      simpa [Bool.and_eq_true, Bool.not_eq_true', beq_eq_false_iff_ne] using hp
    · intro e he
      have hp := (List.mem_filter.mp he).2
      simp only [Bool.and_eq_true, Bool.not_eq_true', beq_eq_false_iff_ne] at hp
      exact ⟨hp.1.1, hp.1.2⟩
  · exact Except.noConfusion h

/-- Store left after `DELETE /api/profiles/1/` on the fixture store:
profile 2 and its skill survive, everything referencing profile 1 is
gone (including the endorsement, whose endorser was profile 1). -/
def fixtureAfterDeleteProfile1 : Store :=
  { profiles := [prof2], skills := [skill2], projects := [],
    connections := [], messages := [], endorsements := [],
    nextId := 9, clock := 9 }

theorem C1_witness :
    (∀ q ∈ fixtureAfterDeleteProfile1.profiles, q.id ≠ 1) ∧
    (∀ sk ∈ fixtureAfterDeleteProfile1.skills, sk.profile ≠ 1) ∧
    (∀ pr ∈ fixtureAfterDeleteProfile1.projects, pr.profile ≠ 1) ∧
    (∀ c ∈ fixtureAfterDeleteProfile1.connections,
       c.follower ≠ 1 ∧ c.following ≠ 1) ∧
    (∀ m ∈ fixtureAfterDeleteProfile1.messages,
       m.sender ≠ 1 ∧ m.receiver ≠ 1) ∧
    (∀ e ∈ fixtureAfterDeleteProfile1.endorsements,
       e.endorser ≠ 1 ∧ e.endorsee ≠ 1) :=
  C1_profile_delete_cascades
    (by rfl : deleteProfile 1 fixtureStore = .ok fixtureAfterDeleteProfile1)

/-- C9: for every Skill s, deleting s also deletes every Endorsement whose
skill reference is s, while the endorser and endorsee Profiles are left
untouched. -/
theorem C9_skill_delete_cascades {sid : Nat} {s s' : Store}
    (h : deleteSkill sid s = .ok s') :
    (∀ e ∈ s'.endorsements, e.skill ≠ sid) ∧
    (∀ sk ∈ s'.skills, sk.id ≠ sid) ∧
    s'.profiles = s.profiles := by
  unfold deleteSkill at h
  split at h
  · injection h with h
    subst h
    refine ⟨?_, ?_, rfl⟩
    · intro e he
      have hp := (List.mem_filter.mp he).2
      simpa [Bool.not_eq_true', beq_eq_false_iff_ne] using hp
    · intro sk hsk
      have hp := (List.mem_filter.mp hsk).2
      simpa [Bool.not_eq_true', beq_eq_false_iff_ne] using hp
  · exact Except.noConfusion h

/-- Store left after `DELETE /api/skills/4/` on the fixture store: the
endorsement of skill 4 is gone, both profiles survive. -/
def fixtureAfterDeleteSkill4 : Store :=
  { profiles := [prof1, prof2], skills := [skill1], projects := [proj1],
    connections := [conn12], messages := [msg12], endorsements := [],
    nextId := 9, clock := 9 }

theorem C9_witness :
    (∀ e ∈ fixtureAfterDeleteSkill4.endorsements, e.skill ≠ 4) ∧
    (∀ sk ∈ fixtureAfterDeleteSkill4.skills, sk.id ≠ 4) ∧
    fixtureAfterDeleteSkill4.profiles = fixtureStore.profiles :=
  C9_skill_delete_cascades
    (by rfl : deleteSkill 4 fixtureStore = .ok fixtureAfterDeleteSkill4)

/-- C6: the spec scenario expects `POST /api/profiles/` with email
"dev@example.com" and name "Jane" to answer 201 with a server-generated
id; the code instead reaches an unhandled database `IntegrityError`
(HTTP 500), because `ProfileSerializer` declares `id` read-only while
`Profile.id` is a non-null one-to-one primary key with no default, so the
INSERT carries a NULL primary key.  The rest of the scenario (GET, DELETE,
GET → 404) is unreachable through the API. -/
theorem C6_profile_create_scenario_fails :
    createProfile { email := some "dev@example.com", full_name := some "Jane" }
        emptyStore = .error .integrityError ∧
    httpStatus .integrityError = 500 ∧ httpStatus .integrityError ≠ 201 := by
  refine ⟨by rfl, rfl, ?_⟩
  intro h
  exact absurd h (by decide)

/-- When field validation passes and the (follower, following) pair is
already taken, `POST /api/connections/` answers the unique-together
validation error. -/
theorem createConnection_dup {p : ConnectionPayload} {s : Store}
    (hv : (validateConnection p s).isEmpty = true)
    (hdup : (s.connections.any fun c =>
        c.follower == p.follower.getD 0 && c.following == p.following.getD 0) = true) :
    createConnection p s = .error (.validation uniqueConnErr) := by
  unfold createConnection
  rw [if_pos hv, if_pos hdup]

/-- When field validation passes and the (follower, following) pair is
free, `POST /api/connections/` inserts the row. -/
theorem createConnection_ok {p : ConnectionPayload} {s : Store}
    (hv : (validateConnection p s).isEmpty = true)
    (hfree : (s.connections.any fun c =>
        c.follower == p.follower.getD 0 && c.following == p.following.getD 0) = false) :
    createConnection p s = .ok
      ({ id := s.nextId, follower := p.follower.getD 0,
         following := p.following.getD 0, status := p.status.getD "connected",
         created_at := s.clock },
       { s with
         connections :=
           { id := s.nextId, follower := p.follower.getD 0,
             following := p.following.getD 0, status := p.status.getD "connected",
             created_at := s.clock } :: s.connections,
         nextId := s.nextId + 1, clock := s.clock + 1 }) := by
  unfold createConnection
  rw [if_pos hv, if_neg (by rw [hfree]; exact Bool.false_ne_true)]

/-- C2: for every pair of Profiles (a, b) with an existing Connection
follower=a, following=b, creating another Connection (a, b) fails with the
uniqueness constraint error, while creating the reverse Connection (b, a),
when that pair does not yet exist, succeeds. -/
theorem C2_connection_pair_unique {a b : Nat} {s : Store}
    (ha : ∃ q ∈ s.profiles, q.id = a)
    (hb : ∃ q ∈ s.profiles, q.id = b)
    (hdup : ∃ c ∈ s.connections, c.follower = a ∧ c.following = b)
    (hrev : ¬ ∃ c ∈ s.connections, c.follower = b ∧ c.following = a) :
    createConnection { follower := some a, following := some b, status := none } s
        = .error (.validation uniqueConnErr) ∧
    ∃ r s',
      createConnection { follower := some b, following := some a, status := none } s
          = .ok (r, s') ∧ r.follower = b ∧ r.following = a := by
  obtain ⟨qa, hqa, hida⟩ := ha
  obtain ⟨qb, hqb, hidb⟩ := hb
  have hA : (s.profiles.any fun q => q.id == a) = true :=
    List.any_eq_true.mpr ⟨qa, hqa, beq_iff_eq.mpr hida⟩
  have hB : (s.profiles.any fun q => q.id == b) = true :=
    List.any_eq_true.mpr ⟨qb, hqb, beq_iff_eq.mpr hidb⟩
  have hvAB : (validateConnection
      { follower := some a, following := some b, status := none } s).isEmpty = true := by
    unfold validateConnection fkProfileErrs defChoiceErrs
    simp [hA, hB]
  have hvBA : (validateConnection
      { follower := some b, following := some a, status := none } s).isEmpty = true := by
    unfold validateConnection fkProfileErrs defChoiceErrs
    simp [hA, hB]
  constructor
  · apply createConnection_dup hvAB
    obtain ⟨c, hc, h1, h2⟩ := hdup
    refine List.any_eq_true.mpr ⟨c, hc, ?_⟩
    simp [h1, h2]
  · have hfree : (s.connections.any fun c =>
        c.follower == b && c.following == a) = false := by
      rw [Bool.eq_false_iff]
      intro hx
      obtain ⟨c, hc, hpc⟩ := List.any_eq_true.mp hx
      simp only [Bool.and_eq_true, beq_iff_eq] at hpc
      exact hrev ⟨c, hc, hpc.1, hpc.2⟩
    exact ⟨_, _, createConnection_ok hvBA hfree, rfl, rfl⟩

theorem C2_witness :
    (createConnection { follower := some 1, following := some 2, status := none }
        fixtureStore = .error (.validation uniqueConnErr)) ∧
    ∃ r s',
      createConnection { follower := some 2, following := some 1, status := none }
          fixtureStore = .ok (r, s') ∧ r.follower = 2 ∧ r.following = 1 :=
  C2_connection_pair_unique (by decide) (by decide) (by decide) (by decide)

/-- C8: for every Profile p with no existing Connection from p to p,
creating a Connection with follower=p and following=p is accepted: no
validation rule or constraint guards against self-follow. -/
theorem C8_self_follow_allowed {p : Nat} {s : Store}
    (hp : ∃ q ∈ s.profiles, q.id = p)
    (hnone : ¬ ∃ c ∈ s.connections, c.follower = p ∧ c.following = p) :
    ∃ r s',
      createConnection { follower := some p, following := some p, status := none } s
          = .ok (r, s') ∧ r.follower = p ∧ r.following = p := by
  obtain ⟨q, hq, hid⟩ := hp
  have hP : (s.profiles.any fun x => x.id == p) = true :=
    List.any_eq_true.mpr ⟨q, hq, beq_iff_eq.mpr hid⟩
  have hv : (validateConnection
      { follower := some p, following := some p, status := none } s).isEmpty = true := by
    unfold validateConnection fkProfileErrs defChoiceErrs
    simp [hP]
  have hfree : (s.connections.any fun c =>
      c.follower == p && c.following == p) = false := by
    rw [Bool.eq_false_iff]
    intro hx
    obtain ⟨c, hc, hpc⟩ := List.any_eq_true.mp hx
    simp only [Bool.and_eq_true, beq_iff_eq] at hpc
    exact hnone ⟨c, hc, hpc.1, hpc.2⟩
  exact ⟨_, _, createConnection_ok hv hfree, rfl, rfl⟩

theorem C8_witness :
    ∃ r s',
      createConnection { follower := some 1, following := some 1, status := none }
          fixtureStore = .ok (r, s') ∧ r.follower = 1 ∧ r.following = 1 :=
  C8_self_follow_allowed (by decide) (by decide)

/-- C10: a Connection create payload that omits `status` yields a stored
Connection with status "connected" (not "pending"). -/
theorem C10_connection_status_defaults {a b : Nat} {s : Store}
    (ha : ∃ q ∈ s.profiles, q.id = a)
    (hb : ∃ q ∈ s.profiles, q.id = b)
    (hfreep : ¬ ∃ c ∈ s.connections, c.follower = a ∧ c.following = b) :
    ∃ r s',
      createConnection { follower := some a, following := some b, status := none } s
          = .ok (r, s') ∧ r.status = "connected" := by
  obtain ⟨qa, hqa, hida⟩ := ha
  obtain ⟨qb, hqb, hidb⟩ := hb
  have hA : (s.profiles.any fun q => q.id == a) = true :=
    List.any_eq_true.mpr ⟨qa, hqa, beq_iff_eq.mpr hida⟩
  have hB : (s.profiles.any fun q => q.id == b) = true :=
    List.any_eq_true.mpr ⟨qb, hqb, beq_iff_eq.mpr hidb⟩
  have hv : (validateConnection
      { follower := some a, following := some b, status := none } s).isEmpty = true := by
    unfold validateConnection fkProfileErrs defChoiceErrs
    simp [hA, hB]
  have hfree : (s.connections.any fun c =>
      c.follower == a && c.following == b) = false := by
    rw [Bool.eq_false_iff]
    intro hx
    obtain ⟨c, hc, hpc⟩ := List.any_eq_true.mp hx
    simp only [Bool.and_eq_true, beq_iff_eq] at hpc
    exact hfreep ⟨c, hc, hpc.1, hpc.2⟩
  exact ⟨_, _, createConnection_ok hv hfree, rfl⟩

theorem C10_witness :
    ∃ r s',
      createConnection { follower := some 2, following := some 1, status := none }
          fixtureStore = .ok (r, s') ∧ r.status = "connected" :=
  C10_connection_status_defaults (by decide) (by decide) (by decide)

/-- A `PUT /api/skills/{id}/` on an existing row with failing field
validation answers that validation error. -/
theorem updateSkill_validation_error {sid : Nat} {p : SkillPayload} {s : Store}
    {old : SkillRec}
    (hfind : s.skills.find? (fun x => x.id == sid) = some old)
    (hne : ¬((validateSkill p s).isEmpty = true)) :
    updateSkill sid p s = .error (.validation (validateSkill p s)) := by
  unfold updateSkill
  rw [hfind]
  exact if_neg hne

/-- C4: a Skill create or update payload whose proficiency is not one of
"beginner", "intermediate", "advanced", "expert" is rejected with a
validation error naming the proficiency field, and the store is left
unchanged (no Skill record is created or modified). -/
theorem C4_invalid_proficiency_rejected {p : SkillPayload} {s : Store} {v : String}
    (hv : p.proficiency = some v)
    (hbad : PROFICIENCY_CHOICES.contains v = false) :
    (∃ es, createSkill p s = .error (.validation es) ∧
        ("proficiency", "is not a valid choice.") ∈ es) ∧
    applyOp (.opCreateSkill p) s = s ∧
    (∀ sid, (∃ sk ∈ s.skills, sk.id = sid) →
      ∃ es, updateSkill sid p s = .error (.validation es) ∧
        ("proficiency", "is not a valid choice.") ∈ es) ∧
    (∀ sid, applyOp (.opUpdateSkill sid p) s = s) := by
  have hmem : ("proficiency", "is not a valid choice.") ∈ validateSkill p s := by
    unfold validateSkill reqChoiceErrs
    rw [hv]
    simp
    exact Or.inr (Or.inr (by simpa using hbad))
  have hnempty : ¬((validateSkill p s).isEmpty = true) := by
    intro hx
    rw [List.isEmpty_iff] at hx
    rw [hx] at hmem
    exact absurd hmem (List.not_mem_nil _)
  have hcs : createSkill p s = .error (.validation (validateSkill p s)) := by
    unfold createSkill
    exact if_neg hnempty
  refine ⟨⟨validateSkill p s, hcs, hmem⟩, ?_, ?_, ?_⟩
  · apply applyOp_eq_of_error
    simp only [execOp]
    rw [hcs]
  · intro sid hex
    obtain ⟨sk, hsk, hskid⟩ := hex
    have hsome : (s.skills.find? fun x => x.id == sid).isSome :=
      List.find?_isSome.mpr ⟨sk, hsk, beq_iff_eq.mpr hskid⟩
    cases hfind : s.skills.find? fun x => x.id == sid with
    | none =>
      rw [hfind] at hsome
      exact absurd hsome (by simp)
    | some old =>
      exact ⟨validateSkill p s, updateSkill_validation_error hfind hnempty, hmem⟩
  · intro sid
    cases hfind : s.skills.find? fun x => x.id == sid with
    | none =>
      have hupd : updateSkill sid p s = .error .notFound := by
        unfold updateSkill
        rw [hfind]
      apply applyOp_eq_of_error
      simp only [execOp]
      rw [hupd]
    | some old =>
      apply applyOp_eq_of_error
      simp only [execOp]
      rw [updateSkill_validation_error hfind hnempty]

theorem C4_witness :
    (∃ es, createSkill
        { profile := some 1, skill_name := some "Rust", proficiency := some "guru" }
        fixtureStore = .error (.validation es) ∧
      ("proficiency", "is not a valid choice.") ∈ es) ∧
    applyOp (.opCreateSkill
        { profile := some 1, skill_name := some "Rust", proficiency := some "guru" })
      fixtureStore = fixtureStore ∧
    (∀ sid, (∃ sk ∈ fixtureStore.skills, sk.id = sid) →
      ∃ es, updateSkill sid
          { profile := some 1, skill_name := some "Rust", proficiency := some "guru" }
          fixtureStore = .error (.validation es) ∧
        ("proficiency", "is not a valid choice.") ∈ es) ∧
    (∀ sid, applyOp (.opUpdateSkill sid
        { profile := some 1, skill_name := some "Rust", proficiency := some "guru" })
      fixtureStore = fixtureStore) :=
  C4_invalid_proficiency_rejected rfl (by decide)

/-- C3: in every reachable store state no two Endorsement records share
the same (endorser, endorsee, skill) triple; creating an Endorsement whose
triple matches an existing record fails (and, by the reachability part,
every other operation preserves uniqueness of the triple). -/
theorem C3_endorsement_triple_unique :
    (∀ s, Reachable s → tripleUnique s) ∧
    (∀ (p : EndorsementPayload) (s : Store),
      (∃ e ∈ s.endorsements, p.endorser = some e.endorser ∧
          p.endorsee = some e.endorsee ∧ p.skill = some e.skill) →
      ∃ es, createEndorsement p s = .error (.validation es)) := by
  constructor
  · intro s hs
    exact (inv_reachable hs).2.1
  · intro p s hex
    obtain ⟨e, he, h1, h2, h3⟩ := hex
    unfold createEndorsement
    by_cases hval : (validateEndorsement p s).isEmpty = true
    · rw [if_pos hval]
      have hAny : (s.endorsements.any fun x =>
          x.endorser == p.endorser.getD 0 && x.endorsee == p.endorsee.getD 0 &&
            x.skill == p.skill.getD 0) = true := by
        refine List.any_eq_true.mpr ⟨e, he, ?_⟩
        rw [h1, h2, h3]
        simp
      rw [if_pos hAny]
      exact ⟨uniqueEndoErr, rfl⟩
    · rw [if_neg hval]
      exact ⟨validateEndorsement p s, rfl⟩

theorem C3_witness :
    tripleUnique emptyStore ∧
    ∃ es, createEndorsement { endorser := some 1, endorsee := some 2, skill := some 4 }
        fixtureStore = .error (.validation es) :=
  ⟨C3_endorsement_triple_unique.1 emptyStore Reachable.start,
   C3_endorsement_triple_unique.2
     { endorser := some 1, endorsee := some 2, skill := some 4 } fixtureStore
     (by decide)⟩

/-- C5 (amended): every created Message has `read = false` whatever the
create payload contained, and no operation of the system ever stores a
message with `read = true` — the serializer marks `read` read-only and the
code offers no receiver-read action at all. -/
theorem C5_message_read_flag :
    (∀ (p : MessagePayload) (s : Store) (x : MessageRec × Store),
      createMessage p s = .ok x → x.1.read = false) ∧
    (∀ s, Reachable s → ∀ m ∈ s.messages, m.read = false) := by
  constructor
  · intro p s x h
    unfold createMessage at h
    split at h
    · injection h with h
      subst h
      rfl
    · exact Except.noConfusion h
  · intro s hs
    exact (inv_reachable hs).2.2

/-- C5 counterexample to the claim as stated: the claim asserts that the
system provides a receiver-read action that sets the read flag to true; in
fact no operation, applied to any reachable store, ever yields a stored
message with `read = true`, so no such action exists. -/
theorem C5_counterexample :
    ¬ ∃ (o : Op) (s : Store), Reachable s ∧
        ∃ m ∈ (applyOp o s).messages, m.read = true := by
  rintro ⟨o, s, hs, m, hm, hread⟩
  have hinv : Inv (applyOp o s) := inv_applyOp o s (inv_reachable hs)
  have hfalse := hinv.2.2 m hm
  rw [hread] at hfalse
  exact Bool.noConfusion hfalse

/-- The message row created by the C5 witness request (note the payload
sent `read := some true`, which the serializer ignored). -/
def c5payload : MessagePayload :=
  { sender := some 1, receiver := some 2, content := some "hi", read := some true }

def c5msg : MessageRec :=
  { id := 9, sender := 1, receiver := 2, content := "hi", created_at := 9 }

def c5after : Store :=
  { profiles := [prof1, prof2], skills := [skill1, skill2], projects := [proj1],
    connections := [conn12], messages := [c5msg, msg12], endorsements := [endo121],
    nextId := 10, clock := 10 }

theorem C5_witness :
    c5msg.read = false ∧ (∀ m ∈ emptyStore.messages, m.read = false) :=
  ⟨C5_message_read_flag.1 c5payload fixtureStore (c5msg, c5after)
     (by rfl : createMessage c5payload fixtureStore = .ok (c5msg, c5after)),
   C5_message_read_flag.2 emptyStore Reachable.start⟩

/-- C7: every create or update whose payload fails validation answers a
nonempty structured list of per-field error messages, and the store is
left completely unchanged — no field of any record is written. -/
theorem C7_validation_rejects_without_write {o : Op} {s : Store}
    {es : List (String × String)}
    (h : execOp o s = .error (.validation es)) :
    es ≠ [] ∧ applyOp o s = s := by
  refine ⟨?_, applyOp_eq_of_error h⟩
  cases o with
  | opCreateProfile p =>
    simp only [execOp] at h
    split at h
    · exact Except.noConfusion h
    · rename_i e hx
      injection h with h
      subst h
      unfold createProfile at hx
      split at hx
      · injection hx with hx
        exact ApiError.noConfusion hx
      · rename_i hne
        injection hx with hx
        injection hx with hx
        subst hx
        intro hnil
        exact hne (by rw [hnil]; rfl)
  | opAdminCreateProfile uid p =>
    simp only [execOp] at h
    split at h
    · exact Except.noConfusion h
    · rename_i e hx
      injection h with h
      subst h
      unfold adminCreateProfile at hx
      split at hx
      · injection hx with hx
        exact ApiError.noConfusion hx
      · exact Except.noConfusion hx
  | opUpdateProfile uid p =>
    simp only [execOp] at h
    split at h
    · exact Except.noConfusion h
    · rename_i e hx
      injection h with h
      subst h
      unfold updateProfile at hx
      split at hx
      · injection hx with hx
        exact ApiError.noConfusion hx
      · split at hx
        · exact Except.noConfusion hx
        · rename_i hne
          injection hx with hx
          injection hx with hx
          subst hx
          intro hnil
          exact hne (by rw [hnil]; rfl)
  | opDeleteProfile uid =>
    simp only [execOp] at h
    unfold deleteProfile at h
    split at h
    · exact Except.noConfusion h
    · injection h with h
      exact ApiError.noConfusion h
  | opCreateSkill p =>
    simp only [execOp] at h
    split at h
    · exact Except.noConfusion h
    · rename_i e hx
      injection h with h
      subst h
      unfold createSkill at hx
      split at hx
      · exact Except.noConfusion hx
      · rename_i hne
        injection hx with hx
        injection hx with hx
        subst hx
        intro hnil
        exact hne (by rw [hnil]; rfl)
  | opUpdateSkill sid p =>
    simp only [execOp] at h
    split at h
    · exact Except.noConfusion h
    · rename_i e hx
      injection h with h
      subst h
      unfold updateSkill at hx
      split at hx
      · injection hx with hx
        exact ApiError.noConfusion hx
      · split at hx
        · exact Except.noConfusion hx
        · rename_i hne
          injection hx with hx
          injection hx with hx
          subst hx
          intro hnil
          exact hne (by rw [hnil]; rfl)
  | opDeleteSkill sid =>
    simp only [execOp] at h
    unfold deleteSkill at h
    split at h
    · exact Except.noConfusion h
    · injection h with h
      exact ApiError.noConfusion h
  | opCreateProject p =>
    simp only [execOp] at h
    split at h
    · exact Except.noConfusion h
    · rename_i e hx
      injection h with h
      subst h
      unfold createProject at hx
      split at hx
      · exact Except.noConfusion hx
      · rename_i hne
        injection hx with hx
        injection hx with hx
        subst hx
        intro hnil
        exact hne (by rw [hnil]; rfl)
  | opUpdateProject pid p =>
    simp only [execOp] at h
    split at h
    · exact Except.noConfusion h
    · rename_i e hx
      injection h with h
      subst h
      unfold updateProject at hx
      split at hx
      · injection hx with hx
        exact ApiError.noConfusion hx
      · split at hx
        · exact Except.noConfusion hx
        · rename_i hne
          injection hx with hx
          injection hx with hx
          subst hx
          intro hnil
          exact hne (by rw [hnil]; rfl)
  | opDeleteProject pid =>
    simp only [execOp] at h
    unfold deleteProject at h
    split at h
    · exact Except.noConfusion h
    · injection h with h
      exact ApiError.noConfusion h
  | opCreateConnection p =>
    simp only [execOp] at h
    split at h
    · exact Except.noConfusion h
    · rename_i e hx
      injection h with h
      subst h
      unfold createConnection at hx
      split at hx
      · split at hx
        · injection hx with hx
          injection hx with hx
          subst hx
          exact List.cons_ne_nil _ _
        · exact Except.noConfusion hx
      · rename_i hne
        injection hx with hx
        injection hx with hx
        subst hx
        intro hnil
        exact hne (by rw [hnil]; rfl)
  | opUpdateConnection cid p =>
    simp only [execOp] at h
    split at h
    · exact Except.noConfusion h
    · rename_i e hx
      injection h with h
      subst h
      unfold updateConnection at hx
      split at hx
      · injection hx with hx
        exact ApiError.noConfusion hx
      · split at hx
        · split at hx
          · injection hx with hx
            injection hx with hx
            subst hx
            exact List.cons_ne_nil _ _
          · exact Except.noConfusion hx
        · rename_i hne
          injection hx with hx
          injection hx with hx
          subst hx
          intro hnil
          exact hne (by rw [hnil]; rfl)
  | opDeleteConnection cid =>
    simp only [execOp] at h
    unfold deleteConnection at h
    split at h
    · exact Except.noConfusion h
    · injection h with h
      exact ApiError.noConfusion h
  | opCreateMessage p =>
    simp only [execOp] at h
    split at h
    · exact Except.noConfusion h
    · rename_i e hx
      injection h with h
      subst h
      unfold createMessage at hx
      split at hx
      · exact Except.noConfusion hx
      · rename_i hne
        injection hx with hx
        injection hx with hx
        subst hx
        intro hnil
        exact hne (by rw [hnil]; rfl)
  | opUpdateMessage mid p =>
    simp only [execOp] at h
    split at h
    · exact Except.noConfusion h
    · rename_i e hx
      injection h with h
      subst h
      unfold updateMessage at hx
      split at hx
      · injection hx with hx
        exact ApiError.noConfusion hx
      · split at hx
        · exact Except.noConfusion hx
        · rename_i hne
          injection hx with hx
          injection hx with hx
          subst hx
          intro hnil
          exact hne (by rw [hnil]; rfl)
  | opDeleteMessage mid =>
    simp only [execOp] at h
    unfold deleteMessage at h
    split at h
    · exact Except.noConfusion h
    · injection h with h
      exact ApiError.noConfusion h
  | opCreateEndorsement p =>
    simp only [execOp] at h
    split at h
    · exact Except.noConfusion h
    · rename_i e hx
      injection h with h
      subst h
      unfold createEndorsement at hx
      split at hx
      · split at hx
        · injection hx with hx
          injection hx with hx
          subst hx
          exact List.cons_ne_nil _ _
        · exact Except.noConfusion hx
      · rename_i hne
        injection hx with hx
        injection hx with hx
        subst hx
        intro hnil
        exact hne (by rw [hnil]; rfl)
  | opUpdateEndorsement eid p =>
    simp only [execOp] at h
    split at h
    · exact Except.noConfusion h
    · rename_i e hx
      injection h with h
      subst h
      unfold updateEndorsement at hx
      split at hx
      · injection hx with hx
        exact ApiError.noConfusion hx
      · split at hx
        · split at hx
          · injection hx with hx
            injection hx with hx
            subst hx
            exact List.cons_ne_nil _ _
          · exact Except.noConfusion hx
        · rename_i hne
          injection hx with hx
          injection hx with hx
          subst hx
          intro hnil
          exact hne (by rw [hnil]; rfl)
  | opDeleteEndorsement eid =>
    simp only [execOp] at h
    unfold deleteEndorsement at h
    split at h
    · exact Except.noConfusion h
    · injection h with h
      exact ApiError.noConfusion h

theorem C7_witness :
    ([("profile", "This field is required."),
      ("skill_name", "This field is required."),
      ("proficiency", "This field is required.")] : List (String × String)) ≠ [] ∧
    applyOp (.opCreateSkill {}) emptyStore = emptyStore :=
  C7_validation_rejects_without_write
    (by rfl : execOp (.opCreateSkill {}) emptyStore = .error (.validation
      [("profile", "This field is required."),
       ("skill_name", "This field is required."),
       ("proficiency", "This field is required.")]))

end Blitz
